import Mathlib

/-!
Shallow embedding of the CoinTracker synchronization engine.

Sources embedded here:
* `types` package (part_000): `Transaction`, `AddressData`.
* `cointracker.go`: `AddAddress`, `RemoveAddress`, `SyncWallets`,
  `fetchAddressData` (pagination + normalization loop).
* `data` package (part_002): schema, `CheckAddress`, `AddAddress`,
  `RemoveAddress`, `UpdateBalance`, `UpdateTransactions`,
  `validateEffectedRows`, and the query strings they run.

The SQLite store is modelled as association lists that mirror the two
tables created by `Initialize`: `wallet (address TEXT PRIMARY KEY,
balance INTEGER)` and `transactions (tx_index TEXT PRIMARY KEY, hash,
address, data)`.  Go binds int64 values into the `tx_index` TEXT column;
decimal rendering of integers is injective, so the key is kept as `Int`.
Go errors are `Except String`; a Go runtime panic (an unchecked type
assertion or a nil-pointer dereference) is modelled by a dedicated
constructor, since a panic crashes the process instead of reporting an
error value.
-/

namespace CoinTracker

/-- Transaction data we want to store (`types.Transaction`): the
ledger-assigned ordinal `Index`, the `Hash`, and the raw serialized record
kept as the opaque payload `Data`. -/
structure Transaction where
  Index : Int
  Hash : String
  Data : String
deriving DecidableEq, Repr

/-- Consolidated per-address data (`types.AddressData`): address, final
balance, source-reported transaction count, and the parsed transactions. -/
structure AddressData where
  Address : String
  Balance : Int
  NumTxs : Nat
  Txs : List Transaction
deriving DecidableEq, Repr

/-- Dynamic JSON value as seen through Go's `map[string]any` after
`json.Unmarshal`: JSON numbers arrive as float64, JSON strings as string;
`other` covers every remaining shape (null, bool, object, array).  Ledger
ordinals are integral, so numbers are carried as `Int`. -/
inductive JValue where
  | num : Int → JValue
  | str : String → JValue
  | other : JValue
deriving DecidableEq, Repr

/-- One raw transaction record of a page.  `parses` records whether
`json.Unmarshal` into a generic map succeeds, `fields` is that map, and
`raw` is the original serialized record (stored as the payload). -/
structure RawTx where
  parses : Bool
  fields : List (String × JValue)
  raw : String
deriving DecidableEq, Repr

/-- Outcome of the fetch/normalization code: success, a returned Go error
(`err`), or a runtime panic (`panicked`) from an unchecked type assertion —
a process crash, not a reported error value. -/
inductive FetchOutcome (α : Type) where
  | panicked : FetchOutcome α
  | err : String → FetchOutcome α
  | ok : α → FetchOutcome α
deriving DecidableEq, Repr

/-- Whether the record's `tx_index` field is present and is a JSON number —
exactly the condition under which Go's `txMap["tx_index"].(float64)`
assertion succeeds. -/
def ordinalOk (r : RawTx) : Bool :=
  match r.fields.lookup "tx_index" with
  | some (JValue.num _) => true
  | _ => false

/-- Whether the record's `hash` field is present and is a JSON string —
exactly the condition under which Go's `txMap["hash"].(string)` assertion
succeeds. -/
def hashOk (r : RawTx) : Bool :=
  match r.fields.lookup "hash" with
  | some (JValue.str _) => true
  | _ => false

/-- Normalization of one raw record (`cointracker.go` lines 194–206):
`json.Unmarshal` into a map (returned error on failure), then the
unchecked assertions `txMap["tx_index"].(float64)` and
`txMap["hash"].(string)`.  A missing or mistyped field makes the assertion
panic — the process crashes. -/
def normalizeOne (r : RawTx) : FetchOutcome Transaction :=
  if r.parses = false then FetchOutcome.err "error while parsing transactions"
  else
    match r.fields.lookup "tx_index", r.fields.lookup "hash" with
    | some (JValue.num i), some (JValue.str h) => FetchOutcome.ok ⟨i, h, r.raw⟩
    | _, _ => FetchOutcome.panicked

/-- The per-page record loop of `fetchAddressData`: records are normalized
in order and appended; the first failure (error or panic) aborts. -/
def processTxs : List RawTx → FetchOutcome (List Transaction)
  | [] => FetchOutcome.ok []
  | r :: rs =>
    match normalizeOne r with
    | FetchOutcome.panicked => FetchOutcome.panicked
    | FetchOutcome.err e => FetchOutcome.err e
    | FetchOutcome.ok t =>
      match processTxs rs with
      | FetchOutcome.panicked => FetchOutcome.panicked
      | FetchOutcome.err e => FetchOutcome.err e
      | FetchOutcome.ok ts => FetchOutcome.ok (t :: ts)

/-- One page of the upstream API (`types.RawAddressResponse` restricted to
the fields `fetchAddressData` reads): `address`, `n_tx`, `final_balance`,
and the raw transaction records. -/
structure Page where
  address : String
  ntx : Nat
  finalBalance : Int
  txs : List RawTx
deriving DecidableEq, Repr

/-- Result of one page request at a given offset: `transportErr` covers an
http.Get error, a non-200 status, a body read error, or a body that fails
to unmarshal — each makes `fetchAddressData` return an error. -/
inductive PageResult where
  | transportErr : String → PageResult
  | page : Page → PageResult
deriving Repr

/-- The fixed page size (`limit, offset := 50, 0` in `fetchAddressData`). -/
def limit : Nat := 50

/-- The pagination loop of `fetchAddressData` (`cointracker.go` lines
158–215), fuel-indexed because an adversarial source could keep the Go
loop running forever.  The first page's address/balance/count are captured
once (`if data == nil`); the stop test runs after `offset += limit` and
uses the current response: stop when the page held fewer than `limit`
records or the advanced offset reached the current response's `n_tx`.
`sizes` is a ghost log of the record count of every fetched page, used to
state pagination facts; it does not influence control flow. -/
def fetchLoop (source : Nat → PageResult) (offset : Nat)
    (data0 : Option AddressData) (allTxs : List Transaction)
    (sizes : List Nat) (fuel : Nat) : FetchOutcome (AddressData × List Nat) :=
  match fuel with
  | 0 => FetchOutcome.err "out of fuel"
  | Nat.succ fuel =>
    match source offset with
    | PageResult.transportErr e => FetchOutcome.err e
    | PageResult.page p =>
      let d := data0.getD ⟨p.address, p.finalBalance, p.ntx, []⟩
      match processTxs p.txs with
      | FetchOutcome.panicked => FetchOutcome.panicked
      | FetchOutcome.err e => FetchOutcome.err e
      | FetchOutcome.ok ts =>
        let acc := allTxs ++ ts
        let sizes2 := sizes ++ [p.txs.length]
        let offset2 := offset + limit
        if p.txs.length < limit ∨ p.ntx ≤ offset2 then
          FetchOutcome.ok ({ d with Txs := acc }, sizes2)
        else
          fetchLoop source offset2 (some d) acc sizes2 fuel

/-- `fetchAddressData` (the per-address sync pass, i.e. the spec's
`syncAddress`): pagination starts at offset 0 with nothing accumulated. -/
def fetchAddressData (source : Nat → PageResult) (fuel : Nat) :
    FetchOutcome (AddressData × List Nat) :=
  fetchLoop source 0 none [] [] fuel

/-- One stored transaction row (`transactions` table minus its key
column): `hash`, `address`, `data`. -/
structure TxRow where
  hash : String
  address : String
  data : String
deriving DecidableEq, Repr

/-- The durable store: the `wallet` table as an association list from
address (its PRIMARY KEY) to balance, and the `transactions` table as an
association list from `tx_index` (its PRIMARY KEY — global, not scoped by
address) to the remaining columns.  Lists keep insertion order. -/
structure Store where
  wallet : List (String × Int)
  transactions : List (Int × TxRow)
deriving DecidableEq, Repr

/-- `CheckAddress` (part_002 lines 104–110): `SELECT EXISTS(SELECT 1 FROM
wallet WHERE address = ?)`. -/
def checkAddress (s : Store) (a : String) : Bool :=
  (s.wallet.lookup a).isSome

/-- `data.AddAddress` (part_002 lines 112–123): `INSERT INTO wallet
(address) VALUES (?)` — a PRIMARY KEY conflict is an exec error; a
successful insert affects exactly one row, so `validateEffectedRows`
passes.  The schema defaults `balance` to 0. -/
def dbAddAddress (s : Store) (a : String) : Except String Store :=
  if (s.wallet.lookup a).isSome then
    Except.error "failure to insert new address: UNIQUE constraint failed"
  else
    Except.ok { s with wallet := s.wallet ++ [(a, 0)] }

/-- Number of wallet rows matching an address — the row count an UPDATE or
DELETE with `WHERE address = ?` reports as affected. -/
def balanceRows (s : Store) (a : String) : Nat :=
  (s.wallet.filter (fun p => p.1 == a)).length

/-- `UpdateBalance` (part_002 lines 153–164): `UPDATE wallet SET balance =
? WHERE address = ?` followed by `validateEffectedRows` demanding exactly
one affected row.  `wallet.address` is the PRIMARY KEY, so at most one row
matches; the only reachable mismatch is 0 rows, in which case the UPDATE
changed nothing and the error is returned. -/
def updateBalance (s : Store) (a : String) (b : Int) : Except String Store :=
  if balanceRows s a = 1 then
    Except.ok { s with wallet := s.wallet.map (fun p => if p.1 == a then (p.1, b) else p) }
  else
    Except.error "invalid number of effected rows in balance update"

/-- One execution of `updateTxQuery` = `INSERT OR IGNORE INTO transactions
(tx_index, hash, address, data) VALUES (?, ?, ?, ?)`: the table's PRIMARY
KEY is `tx_index` alone, so when that key already exists — for ANY address
— the insert is ignored and 0 rows are affected; otherwise the row is
inserted and 1 row is affected.  Returns (new state, rows affected). -/
def upsertTx (s : Store) (a : String) (t : Transaction) : Store × Nat :=
  if (s.transactions.lookup t.Index).isSome then (s, 0)
  else ({ s with transactions := s.transactions ++ [(t.Index, ⟨t.Hash, a, t.Data⟩)] }, 1)

/-- `UpdateTransactions` (part_002 lines 166–176): loops the snapshot's
transactions through `updateTxQuery`.  Only an exec error aborts, and
`INSERT OR IGNORE` cannot fail its key constraint, so the loop never
inspects how many rows a statement affected — there is no
`validateEffectedRows` call here. -/
def updateTransactions (s : Store) (d : AddressData) : Except String Store :=
  Except.ok (d.Txs.foldl (fun s2 t => (upsertTx s2 d.Address t).1) s)

/-- `data.RemoveAddress` (part_002 lines 125–151): inside one SQL
transaction, `DELETE FROM wallet WHERE address = ?` validated against
exactly one affected row, then `DELETE FROM transactions WHERE address =
?` (unvalidated), then commit; the deferred rollback makes any failure
leave the store unchanged. -/
def dbRemoveAddress (s : Store) (a : String) : Except String Store :=
  if balanceRows s a = 1 then
    Except.ok { wallet := s.wallet.filter (fun p => p.1 != a),
                transactions := s.transactions.filter (fun r => r.2.address != a) }
  else
    Except.error "invalid number of effected rows in address removal"

/-- `Wallet.AddAddress` (cointracker.go lines 41–62): reject lengths 0 or
over 42 (Go measures bytes; all addresses used here are ASCII, where byte
and character counts agree), then check existence first — an existing
address returns `(true, nil)` without touching the store; otherwise insert
and return `(false, nil)`.  The background `go w.fetchAddressData(address)`
it launches discards its result and never writes, so it has no state
effect. -/
def walletAddAddress (s : Store) (address : String) : Except String (Bool × Store) :=
  if address.length = 0 ∨ 42 < address.length then
    Except.error "cannot add address of invalid length"
  else if checkAddress s address then
    Except.ok (true, s)
  else
    match dbAddAddress s address with
    | Except.error _ => Except.error "failure to add new address"
    | Except.ok s2 => Except.ok (false, s2)

/-- `Wallet.RemoveAddress` (cointracker.go lines 64–74): check existence
first — an absent address returns `(false, nil)` with nothing changed;
otherwise delegate to `data.RemoveAddress`.  (Go returns the bool alongside
a possible error; the error case carries no state change either way.) -/
def walletRemoveAddress (s : Store) (address : String) : Except String (Bool × Store) :=
  if checkAddress s address then
    match dbRemoveAddress s address with
    | Except.error e => Except.error e
    | Except.ok s2 => Except.ok (true, s2)
  else
    Except.ok (false, s)

/-- Body of the `SyncWallets` commit loop for one collected result
(cointracker.go lines 99–108): errors from `UpdateBalance` and
`UpdateTransactions` are logged and otherwise ignored — the loop moves on
and nothing is rolled back. -/
def applyResult (s : Store) (r : AddressData) : Store :=
  let s1 := match updateBalance s r.Address r.Balance with
    | Except.ok s2 => s2
    | Except.error _ => s
  match updateTransactions s1 r with
  | Except.ok s2 => s2
  | Except.error _ => s1

/-- The `SyncWallets` commit loop over the assembled results slice
(cointracker.go lines 93–113): each entry is dereferenced
(`result.Address`, `result.Balance`) with no nil check, so a nil entry is
a nil-pointer panic (`none` result); `CommitTransaction` runs at the end
and no rollback exists anywhere on this path, so on the non-panic path all
state changes accumulated by the loop become durable. -/
def commitPhase : Store → List (Option AddressData) → Option Store
  | s, [] => some s
  | _, none :: _ => none
  | s, some r :: rest => commitPhase (applyResult s r) rest

/-- The same commit loop applied to an all-non-nil slice. -/
def commitWrites (s : Store) (results : List AddressData) : Store :=
  results.foldl applyResult s

/-- Assembly phase of `SyncWallets` (cointracker.go lines 82–91): the
results slice is created with `make([]*types.AddressData, len(addresses))`
— length equal to the address count, every entry nil — and each successful
fetch is appended; fetch failures are logged and contribute nothing. -/
def collectResults (fetch : String → Except String AddressData)
    (addrs : List String) : List (Option AddressData) :=
  addrs.foldl
    (fun acc a =>
      match fetch a with
      | Except.ok d => acc ++ [some d]
      | Except.error _ => acc)
    (List.replicate addrs.length none)

/-- The snapshots of the addresses whose fetch succeeded, in address
order. -/
def successes (fetch : String → Except String AddressData)
    (addrs : List String) : List AddressData :=
  addrs.filterMap (fun a => (fetch a).toOption)

/-- Whole `SyncWallets` pass over a store, with the per-address fetch
abstracted (it performs network I/O): list the wallet's addresses, collect
results, then run the commit loop. -/
def syncWallets (fetch : String → Except String AddressData) (s : Store) :
    Option Store :=
  commitPhase s (collectResults fetch (s.wallet.map Prod.fst))

/-- Snapshot with no transactions, used by concrete commit scenarios. -/
def mkSnap (a : String) (b : Int) : AddressData := ⟨a, b, 0, []⟩

/-- The fetch-and-append loop of SyncWallets (cointracker.go 83–91) with
the per-address fetch given its FULL outcome type, panic included: a
returned error is logged and the loop moves to the next address, but a
panic — the unchecked type assertions of normalization firing on a
malformed record, with no recover anywhere — propagates out of the loop
and kills the whole run, so the remaining addresses are never visited.
`att` is a ghost log of the addresses whose fetch was actually invoked;
it does not influence control flow. -/
def collectLoopP (fetch : String → FetchOutcome AddressData) :
    List String → List (Option AddressData) → List String →
    FetchOutcome (List (Option AddressData)) × List String
  | [], acc, att => (FetchOutcome.ok acc, att)
  | a :: addrs, acc, att =>
    match fetch a with
    | FetchOutcome.panicked => (FetchOutcome.panicked, att ++ [a])
    | FetchOutcome.err _ => collectLoopP fetch addrs acc (att ++ [a])
    | FetchOutcome.ok d => collectLoopP fetch addrs (acc ++ [some d]) (att ++ [a])

/-- Assembly phase of SyncWallets under the panic-aware fetch type,
started — like the source — from the nil-prefilled results slice. -/
def collectResultsP (fetch : String → FetchOutcome AddressData)
    (addrs : List String) :
    FetchOutcome (List (Option AddressData)) × List String :=
  collectLoopP fetch addrs (List.replicate addrs.length none) []

/-- The snapshots of the addresses whose panic-aware fetch succeeded, in
address order. -/
def successesP (fetch : String → FetchOutcome AddressData)
    (addrs : List String) : List AddressData :=
  addrs.filterMap (fun a =>
    match fetch a with
    | FetchOutcome.ok d => some d
    | _ => none)

/-! ### Association-list helper lemmas -/

/-- A key with no binding in an association list is not among its keys. -/
theorem assoc_not_mem_of_lookup_none {κ β : Type} [BEq κ] [LawfulBEq κ]
    (l : List (κ × β)) (a : κ) (h : l.lookup a = none) :
    a ∉ l.map Prod.fst := by
  induction l with
  | nil => simp
  | cons p l ih =>
    obtain ⟨k, v⟩ := p
    by_cases hk : a = k
    · subst hk
      simp [List.lookup] at h
    · have h2 : l.lookup a = none := by
        simpa [List.lookup, beq_false_of_ne hk] using h
      simpa [hk] using ih h2

/-- A key absent from the keys has no binding. -/
theorem assoc_lookup_none_of_not_mem {κ β : Type} [BEq κ] [LawfulBEq κ]
    (l : List (κ × β)) (a : κ) (h : a ∉ l.map Prod.fst) :
    l.lookup a = none := by
  induction l with
  | nil => rfl
  | cons p l ih =>
    obtain ⟨k, v⟩ := p
    simp only [List.map_cons, List.mem_cons, not_or] at h
    simpa [List.lookup, beq_false_of_ne h.1] using ih h.2

/-- Lookup distributes through append when the left part lacks the key. -/
theorem assoc_lookup_append {κ β : Type} [BEq κ] [LawfulBEq κ]
    (l l2 : List (κ × β)) (a : κ) (h : l.lookup a = none) :
    (l ++ l2).lookup a = l2.lookup a := by
  induction l with
  | nil => rfl
  | cons p l ih =>
    obtain ⟨k, v⟩ := p
    by_cases hk : a = k
    · subst hk; simp [List.lookup] at h
    · have h2 : l.lookup a = none := by
        simpa [List.lookup, beq_false_of_ne hk] using h
      simpa [List.lookup, beq_false_of_ne hk] using ih h2

/-- Filtering an association list for an unbound key yields nothing. -/
theorem assoc_filter_eq_nil {κ β : Type} [BEq κ] [LawfulBEq κ]
    (l : List (κ × β)) (a : κ) (h : l.lookup a = none) :
    l.filter (fun p => p.1 == a) = [] := by
  refine List.filter_eq_nil_iff.mpr ?_
  intro p hp
  have hmem := assoc_not_mem_of_lookup_none l a h
  have : p.1 ≠ a := by
    intro he
    exact hmem (List.mem_map.mpr ⟨p, hp, he⟩)
  simpa using this

/-- With nodup keys, a bound key matches exactly one row. -/
theorem assoc_rows_one {κ β : Type} [BEq κ] [LawfulBEq κ]
    (l : List (κ × β)) (a : κ) (hnd : (l.map Prod.fst).Nodup)
    (h : (l.lookup a).isSome = true) :
    (l.filter (fun p => p.1 == a)).length = 1 := by
  induction l with
  | nil => simp [List.lookup] at h
  | cons p l ih =>
    obtain ⟨k, v⟩ := p
    simp only [List.map_cons, List.nodup_cons] at hnd
    by_cases hk : a = k
    · subst hk
      have hnone : l.lookup a = none := assoc_lookup_none_of_not_mem l a hnd.1
      simp [List.filter_cons, assoc_filter_eq_nil l a hnone]
    · have h2 : (l.lookup a).isSome = true := by
        simpa [List.lookup, beq_false_of_ne hk] using h
      have := ih hnd.2 h2
      simpa [List.filter_cons, beq_false_of_ne (Ne.symm hk)] using this

/-! ### SyncWallets assembly-phase lemmas -/

/-- The fetch-and-append loop of SyncWallets, started from any
accumulator, appends exactly the successful snapshots in order. -/
theorem collect_go (fetch : String → Except String AddressData)
    (addrs : List String) :
    ∀ acc : List (Option AddressData),
      List.foldl
        (fun acc a =>
          match fetch a with
          | Except.ok d => acc ++ [some d]
          | Except.error _ => acc) acc addrs
      = acc ++ (successes fetch addrs).map some := by
  induction addrs with
  | nil => intro acc; simp [successes]
  | cons a addrs ih =>
    intro acc
    rw [List.foldl_cons]
    cases h : fetch a with
    | ok d =>
      rw [ih]
      simp [successes, List.filterMap_cons, h, Except.toOption]
    | error e =>
      rw [ih]
      simp [successes, List.filterMap_cons, h, Except.toOption]

/-- The results slice equals a nil prefix of one entry per address followed
by the successful snapshots. -/
theorem collectResults_eq (fetch : String → Except String AddressData)
    (addrs : List String) :
    collectResults fetch addrs
      = List.replicate addrs.length none ++ (successes fetch addrs).map some := by
  unfold collectResults
  exact collect_go fetch addrs _

/-- Reducing away the options of an all-nil list gives nothing. -/
theorem reduceOption_replicate_none {α : Type} (n : Nat) :
    (List.replicate n (none : Option α)).reduceOption = [] := by
  induction n with
  | zero => rfl
  | succ n ih => simp [List.replicate_succ, List.reduceOption_cons_of_none, ih]

/-- Reducing away the options of a some-mapped list recovers it. -/
theorem reduceOption_map_some {α : Type} (l : List α) :
    (l.map some).reduceOption = l := by
  induction l with
  | nil => rfl
  | cons x l ih => simp [List.reduceOption_cons_of_some, ih]

/-! ### Claim theorems -/

/-- C3 (confirmed): for every non-empty address set, the results slice that
SyncWallets assembles is pre-allocated with length equal to the address
count and then appended into, so it begins with one nil AddressData entry
per known address regardless of whether any fetch failed; and the commit
loop, which dereferences the Address and Balance fields of each entry with
no nil check, hits those nil entries — a nil-pointer panic, modelled as
`none`. -/
theorem results_prefilled_with_nils (fetch : String → Except String AddressData)
    (addrs : List String) (s : Store) (h : addrs ≠ []) :
    collectResults fetch addrs
      = List.replicate addrs.length (none : Option AddressData)
          ++ (successes fetch addrs).map some
    ∧ commitPhase s (collectResults fetch addrs) = none := by
  refine ⟨collectResults_eq fetch addrs, ?_⟩
  rw [collectResults_eq]
  cases addrs with
  | nil => exact absurd rfl h
  | cons a addrs => rfl

/-- Witness for C3: one address whose fetch SUCCEEDS still yields a
leading nil entry, and the commit loop panics on it. -/
theorem results_prefilled_with_nils_witness :
    collectResults (fun a => Except.ok ⟨a, 1, 0, []⟩) ["A"]
        = [none, some ⟨"A", 1, 0, []⟩]
    ∧ commitPhase ⟨[("A", 0)], []⟩
        (collectResults (fun a => Except.ok ⟨a, 1, 0, []⟩) ["A"]) = none := by
  have h := results_prefilled_with_nils (fun a => Except.ok ⟨a, 1, 0, []⟩)
    ["A"] ⟨[("A", 0)], []⟩ (by simp)
  exact ⟨by simpa [successes] using h.1, h.2⟩

/-- C1 counterexample: with address A stored (balance 0) and B not stored,
the batch [A ↦ 5, B ↦ 7] hits a failing write for B (its balance UPDATE
affects 0 rows at the state the loop has reached), yet afterwards A's
staged write IS visible: the final store holds A ↦ 5, not A ↦ 0 — the
claimed rollback does not happen. -/
theorem commit_no_rollback_cex :
    updateBalance ⟨[("A", 5)], []⟩ "B" 7
        = Except.error "invalid number of effected rows in balance update"
    ∧ commitWrites ⟨[("A", 0)], []⟩ [mkSnap "A" 5, mkSnap "B" 7]
        = ⟨[("A", 5)], []⟩ :=
  ⟨rfl, rfl⟩

/-- C1 corrected: a write failure inside the SyncWallets transaction
boundary is logged and skipped, never rolled back, and the commit still
runs: with A stored and B absent, B's balance update fails, yet A's write
staged BEFORE the failure stays visible (first conjunct), the loop also
continues past an EARLY failure and applies later writes (second
conjunct), and B's write indeed fails (third conjunct). -/
theorem commit_failure_logged_not_rolled_back (b0 bA bB : Int) :
    commitWrites ⟨[("A", b0)], []⟩ [mkSnap "A" bA, mkSnap "B" bB]
        = ⟨[("A", bA)], []⟩
    ∧ commitWrites ⟨[("A", b0)], []⟩ [mkSnap "B" bB, mkSnap "A" bA]
        = ⟨[("A", bA)], []⟩
    ∧ updateBalance ⟨[("A", bA)], []⟩ "B" bB
        = Except.error "invalid number of effected rows in balance update" := by
  refine ⟨?_, ?_, ?_⟩ <;>
    simp [commitWrites, applyResult, updateBalance, updateTransactions,
      balanceRows, mkSnap, List.foldl]

/-- Raw record that unmarshals fine but has no tx_index field. -/
def badRec : RawTx := ⟨true, [("hash", JValue.str "abc")], "rawbytes"⟩

/-- Source whose single page contains only `badRec`. -/
def badSource : Nat → PageResult := fun _ =>
  PageResult.page ⟨"addr1", 1, 10, [badRec]⟩

/-- C2 counterexample: a transaction record missing its ordinal field does
NOT produce a returned MalformedRecord-style error: the unchecked type
assertion `txMap["tx_index"].(float64)` panics, crashing the pass —
`FetchOutcome.panicked` is a distinct constructor from every
`FetchOutcome.err` message, so nothing is reported to the caller. -/
theorem malformed_record_panics_cex :
    normalizeOne badRec = FetchOutcome.panicked
    ∧ fetchAddressData badSource 5 = FetchOutcome.panicked :=
  ⟨rfl, rfl⟩

/-- C2 corrected: for every raw record that unmarshals but whose ordinal
or hash field is absent or of the wrong type, normalization PANICS (an
unchecked Go type assertion — a crash, not a reported error), the whole
page-processing loop panics with it, and the address fetch crashes,
returning no Snapshot. -/
theorem malformed_record_crashes (r : RawTx) (h1 : r.parses = true)
    (h2 : ordinalOk r = false ∨ hashOk r = false) :
    normalizeOne r = FetchOutcome.panicked
    ∧ (∀ rs1 rs2 : List RawTx,
        (∀ x ∈ rs1, ∃ t, normalizeOne x = FetchOutcome.ok t) →
        processTxs (rs1 ++ r :: rs2) = FetchOutcome.panicked)
    ∧ (∀ (src : Nat → PageResult) (p : Page) (fuel : Nat),
        src 0 = PageResult.page p → processTxs p.txs = FetchOutcome.panicked →
        fetchAddressData src (fuel + 1) = FetchOutcome.panicked) := by
  have hn : normalizeOne r = FetchOutcome.panicked := by
    unfold normalizeOne
    rw [if_neg (by simp [h1])]
    cases ho : r.fields.lookup "tx_index" with
    | none =>
      cases hh : r.fields.lookup "hash" with
      | none => rfl
      | some w => cases w <;> rfl
    | some v =>
      cases hh : r.fields.lookup "hash" with
      | none => cases v <;> rfl
      | some w =>
        cases v with
        | num i =>
          cases w with
          | str hs =>
            exfalso
            rcases h2 with h2 | h2
            · simp [ordinalOk, ho] at h2
            · simp [hashOk, hh] at h2
          | num j => rfl
          | other => rfl
        | str sv => cases w <;> rfl
        | other => cases w <;> rfl
  have hp : ∀ rs1 : List RawTx,
      (∀ x ∈ rs1, ∃ t, normalizeOne x = FetchOutcome.ok t) →
      ∀ rs2, processTxs (rs1 ++ r :: rs2) = FetchOutcome.panicked := by
    intro rs1
    induction rs1 with
    | nil => intro _ rs2; simp [processTxs, hn]
    | cons x rs1 ih =>
      intro hx rs2
      obtain ⟨t, ht⟩ := hx x (List.mem_cons_self _ _)
      have hrest := ih (fun y hy => hx y (List.mem_cons_of_mem _ hy)) rs2
      simp [processTxs, ht, hrest]
  refine ⟨hn, fun rs1 rs2 h => hp rs1 h rs2, ?_⟩
  intro src p fuel hsrc hpan
  unfold fetchAddressData
  rw [show fuel + 1 = Nat.succ fuel from rfl]
  unfold fetchLoop
  rw [hsrc]
  simp [hpan]

/-- Raw record whose ordinal field has the wrong type (a string). -/
def badRec2 : RawTx :=
  ⟨true, [("tx_index", JValue.str "oops"), ("hash", JValue.str "h")], "x"⟩

/-- Source whose single page contains only `badRec2`. -/
def badSource2 : Nat → PageResult := fun _ =>
  PageResult.page ⟨"a2", 3, 5, [badRec2]⟩

/-- Witness for the corrected C2: a record whose tx_index is a string
makes normalization and the whole fetch panic. -/
theorem malformed_record_crashes_witness :
    normalizeOne badRec2 = FetchOutcome.panicked
    ∧ fetchAddressData badSource2 7 = FetchOutcome.panicked := by
  have h := malformed_record_crashes badRec2 rfl (Or.inl rfl)
  refine ⟨h.1, ?_⟩
  have h2 := h.2.1 [] [] (by intro x hx; cases hx)
  exact h.2.2 badSource2 ⟨"a2", 3, 5, [badRec2]⟩ 6 rfl (by simpa using h2)

/-- Well-formed raw record with ordinal i, used by fake sources. -/
def goodRec (i : Nat) : RawTx :=
  ⟨true, [("tx_index", JValue.num i), ("hash", JValue.str "h")], "raw"⟩

/-- Fake source reporting totalCount = 120 and serving full pages: the page
at a given offset holds min(50, 120 - offset) records. -/
def source120 : Nat → PageResult := fun offset =>
  PageResult.page
    ⟨"addr120", 120, 999,
     (List.range (min limit (120 - offset))).map (fun k => goodRec (offset + k))⟩

/-- One-step unfolding of the pagination loop at positive fuel. -/
theorem fetchLoop_succ (source : Nat → PageResult) (offset : Nat)
    (data0 : Option AddressData) (allTxs : List Transaction)
    (sizes : List Nat) (fuel : Nat) :
    fetchLoop source offset data0 allTxs sizes (fuel + 1)
      = match source offset with
        | PageResult.transportErr e => FetchOutcome.err e
        | PageResult.page p =>
          match processTxs p.txs with
          | FetchOutcome.panicked => FetchOutcome.panicked
          | FetchOutcome.err e => FetchOutcome.err e
          | FetchOutcome.ok ts =>
            if p.txs.length < limit ∨ p.ntx ≤ offset + limit then
              FetchOutcome.ok
                ({ data0.getD ⟨p.address, p.finalBalance, p.ntx, []⟩ with
                    Txs := allTxs ++ ts },
                 sizes ++ [p.txs.length])
            else
              fetchLoop source (offset + limit)
                (some (data0.getD ⟨p.address, p.finalBalance, p.ntx, []⟩))
                (allTxs ++ ts) (sizes ++ [p.txs.length]) fuel := rfl

/-- C4 (confirmed): pagination starts at offset 0 (first conjunct), a page
leaving fewer than pageSize records or advancing the offset to at least the
current totalCount ends the loop right there — whichever triggers first,
so a short page ends pagination even when totalCount suggests more remain
(second conjunct), otherwise the loop recurses with the offset advanced by
exactly the page size (third conjunct); for the fake source with
totalCount = 120 and pageSize = 50, exactly 3 pages of sizes 50, 50, 20
are fetched (fourth conjunct). -/
theorem pagination_terminates :
    (∀ (source : Nat → PageResult) (fuel : Nat),
        fetchAddressData source fuel = fetchLoop source 0 none [] [] fuel)
    ∧ (∀ (source : Nat → PageResult) (offset : Nat) (d0 : Option AddressData)
        (acc : List Transaction) (sizes : List Nat) (fuel : Nat) (p : Page)
        (ts : List Transaction),
        source offset = PageResult.page p →
        processTxs p.txs = FetchOutcome.ok ts →
        p.txs.length < limit ∨ p.ntx ≤ offset + limit →
        fetchLoop source offset d0 acc sizes (fuel + 1)
          = FetchOutcome.ok
              ({ d0.getD ⟨p.address, p.finalBalance, p.ntx, []⟩ with
                  Txs := acc ++ ts },
               sizes ++ [p.txs.length]))
    ∧ (∀ (source : Nat → PageResult) (offset : Nat) (d0 : Option AddressData)
        (acc : List Transaction) (sizes : List Nat) (fuel : Nat) (p : Page)
        (ts : List Transaction),
        source offset = PageResult.page p →
        processTxs p.txs = FetchOutcome.ok ts →
        ¬ (p.txs.length < limit ∨ p.ntx ≤ offset + limit) →
        fetchLoop source offset d0 acc sizes (fuel + 1)
          = fetchLoop source (offset + limit)
              (some (d0.getD ⟨p.address, p.finalBalance, p.ntx, []⟩))
              (acc ++ ts) (sizes ++ [p.txs.length]) fuel)
    ∧ fetchAddressData source120 10
        = FetchOutcome.ok
            (⟨"addr120", 999, 120,
              (List.range 120).map (fun i => ⟨(i : Int), "h", "raw"⟩)⟩,
             [50, 50, 20]) := by
  refine ⟨fun _ _ => rfl, ?_, ?_, ?_⟩
  · intro source offset d0 acc sizes fuel p ts hsrc hts hstop
    rw [fetchLoop_succ, hsrc]
    simp only [hts]
    rw [if_pos hstop]
  · intro source offset d0 acc sizes fuel p ts hsrc hts hgo
    rw [fetchLoop_succ, hsrc]
    simp only [hts]
    rw [if_neg hgo]
  · rfl

/-- Single-page source used by the C4 witness: it CLAIMS 1000 transactions
but serves a 1-record page, so the short-page condition must end
pagination after that one page. -/
def shortSource : Nat → PageResult := fun _ =>
  PageResult.page ⟨"addrS", 1000, 7, [goodRec 0]⟩

/-- Witness for C4: a page of 1 record ends pagination immediately even
though the reported totalCount (1000) suggests far more remain. -/
theorem pagination_terminates_witness :
    fetchLoop shortSource 0 none [] [] 3
      = FetchOutcome.ok (⟨"addrS", 7, 1000, [⟨0, "h", "raw"⟩]⟩, [1]) := by
  have h := pagination_terminates.2.1 shortSource 0 none [] [] 2
    ⟨"addrS", 1000, 7, [goodRec 0]⟩ [⟨0, "h", "raw"⟩] rfl rfl
    (Or.inl (by decide))
  simpa using h

/-- When no fetch panics, the sync loop visits every address, skips the
errors, and appends exactly the successful snapshots. -/
theorem collectLoopP_no_panic (fetch : String → FetchOutcome AddressData) :
    ∀ (addrs : List String) (acc : List (Option AddressData)) (att : List String),
      (∀ a ∈ addrs, fetch a ≠ FetchOutcome.panicked) →
      collectLoopP fetch addrs acc att
        = (FetchOutcome.ok (acc ++ (successesP fetch addrs).map some),
           att ++ addrs) := by
  intro addrs
  induction addrs with
  | nil => intro acc att _; simp [collectLoopP, successesP]
  | cons a addrs ih =>
    intro acc att h
    rw [show collectLoopP fetch (a :: addrs) acc att
        = (match fetch a with
           | FetchOutcome.panicked => (FetchOutcome.panicked, att ++ [a])
           | FetchOutcome.err _ => collectLoopP fetch addrs acc (att ++ [a])
           | FetchOutcome.ok d =>
              collectLoopP fetch addrs (acc ++ [some d]) (att ++ [a])) from rfl]
    cases hf : fetch a with
    | panicked => exact absurd hf (h a (List.mem_cons_self _ _))
    | err e =>
      rw [ih acc (att ++ [a]) (fun x hx => h x (List.mem_cons_of_mem _ hx))]
      simp [successesP, List.filterMap_cons, hf]
    | ok d =>
      change collectLoopP fetch addrs (acc ++ [some d]) (att ++ [a]) = _
      rw [ih (acc ++ [some d]) (att ++ [a])
        (fun x hx => h x (List.mem_cons_of_mem _ hx))]
      simp [successesP, List.filterMap_cons, hf]

/-- A panicking fetch stops the sync loop right there: the addresses after
it are never visited and the whole pass crashes. -/
theorem collectLoopP_panic (fetch : String → FetchOutcome AddressData)
    (bad : String) (hbad : fetch bad = FetchOutcome.panicked) :
    ∀ (pre : List String) (post : List String) (acc : List (Option AddressData))
      (att : List String),
      (∀ a ∈ pre, fetch a ≠ FetchOutcome.panicked) →
      collectLoopP fetch (pre ++ bad :: post) acc att
        = (FetchOutcome.panicked, att ++ pre ++ [bad]) := by
  intro pre
  induction pre with
  | nil =>
    intro post acc att _
    rw [List.nil_append,
      show collectLoopP fetch (bad :: post) acc att
        = (match fetch bad with
           | FetchOutcome.panicked => (FetchOutcome.panicked, att ++ [bad])
           | FetchOutcome.err _ => collectLoopP fetch post acc (att ++ [bad])
           | FetchOutcome.ok d =>
              collectLoopP fetch post (acc ++ [some d]) (att ++ [bad])) from rfl,
      hbad]
    simp
  | cons a pre ih =>
    intro post acc att h
    rw [List.cons_append,
      show collectLoopP fetch (a :: (pre ++ bad :: post)) acc att
        = (match fetch a with
           | FetchOutcome.panicked => (FetchOutcome.panicked, att ++ [a])
           | FetchOutcome.err _ =>
              collectLoopP fetch (pre ++ bad :: post) acc (att ++ [a])
           | FetchOutcome.ok d =>
              collectLoopP fetch (pre ++ bad :: post) (acc ++ [some d])
                (att ++ [a])) from rfl]
    cases hf : fetch a with
    | panicked => exact absurd hf (h a (List.mem_cons_self _ _))
    | err e =>
      rw [ih post acc (att ++ [a]) (fun x hx => h x (List.mem_cons_of_mem _ hx))]
      simp
    | ok d =>
      change collectLoopP fetch (pre ++ bad :: post) (acc ++ [some d])
          (att ++ [a]) = _
      rw [ih post (acc ++ [some d]) (att ++ [a])
        (fun x hx => h x (List.mem_cons_of_mem _ hx))]
      simp

/-- Per-address page sources used by the C8 scenario: the address "bad"
serves a page whose record lacks the ordinal field, every other address
serves one well-formed one-record page. -/
def sourcesFor (a : String) : Nat → PageResult := fun _ =>
  if a == "bad" then PageResult.page ⟨a, 1, 5, [badRec]⟩
  else PageResult.page ⟨a, 1, 5, [goodRec 0]⟩

/-- The per-address fetch of the C8 scenario, run through the real
embedded fetchAddressData (dropping the ghost page-size log). -/
def fetchVia (a : String) : FetchOutcome AddressData :=
  match fetchAddressData (sourcesFor a) 5 with
  | FetchOutcome.ok (d, _) => FetchOutcome.ok d
  | FetchOutcome.err e => FetchOutcome.err e
  | FetchOutcome.panicked => FetchOutcome.panicked

/-- C8 counterexample: with the tracked set ["bad", "good"], where "bad"'s
page holds a record missing its ordinal so normalization panics
(cointracker.go 202) and "good" would fetch fine, the sync loop crashes at
"bad": the whole pass returns the panic, the remaining address "good" is
never attempted, and no snapshot for it is collected — one bad address
DOES abort the rest of the run, unlogged. -/
theorem fetch_failure_aborts_rest_cex :
    fetchVia "bad" = FetchOutcome.panicked
    ∧ fetchVia "good" = FetchOutcome.ok ⟨"good", 5, 1, [⟨0, "h", "raw"⟩]⟩
    ∧ collectResultsP fetchVia ["bad", "good"]
        = (FetchOutcome.panicked, ["bad"]) :=
  ⟨rfl, rfl, rfl⟩

/-- C8 corrected: a per-address failure is isolated only when the fetch
RETURNS an error (transport failure, bad status, unreadable or
unparseable body): then it is logged, contributes no snapshot, and every
remaining address still syncs — when no fetch panics, the loop visits all
addresses and collects exactly the successful snapshots (first conjunct).
A normalization panic from a malformed record, however, aborts the rest of
the run: the loop stops at the panicking address and the addresses after
it are never attempted (second conjunct). -/
theorem fetch_failures_isolated_unless_panic
    (fetch : String → FetchOutcome AddressData) (addrs : List String) :
    ((∀ a ∈ addrs, fetch a ≠ FetchOutcome.panicked) →
      collectResultsP fetch addrs
        = (FetchOutcome.ok (List.replicate addrs.length none
            ++ (successesP fetch addrs).map some), addrs))
    ∧ ∀ (pre post : List String) (bad : String),
        addrs = pre ++ bad :: post →
        (∀ a ∈ pre, fetch a ≠ FetchOutcome.panicked) →
        fetch bad = FetchOutcome.panicked →
        collectResultsP fetch addrs = (FetchOutcome.panicked, pre ++ [bad]) := by
  constructor
  · intro h
    unfold collectResultsP
    rw [collectLoopP_no_panic fetch addrs (List.replicate addrs.length none) [] h]
    rw [List.nil_append]
  · intro pre post bad hsplit hpre hbad
    unfold collectResultsP
    rw [hsplit,
      collectLoopP_panic fetch bad hbad pre post
        (List.replicate (pre ++ bad :: post).length none) [] hpre]
    rw [List.nil_append]

/-- Witness for the corrected C8: error-free addresses are all visited
with their snapshots collected (first conjunct, "good" alone), and a
panicking address aborts the pass right after it ("bad" after "good":
attempts stop at "bad"). -/
theorem fetch_failures_isolated_unless_panic_witness :
    collectResultsP fetchVia ["good"]
        = (FetchOutcome.ok (List.replicate (["good"] : List String).length none
            ++ (successesP fetchVia ["good"]).map some), ["good"])
    ∧ collectResultsP fetchVia ["good", "bad"]
        = (FetchOutcome.panicked, ["good", "bad"]) := by
  constructor
  · exact (fetch_failures_isolated_unless_panic fetchVia ["good"]).1 (by decide)
  · exact (fetch_failures_isolated_unless_panic fetchVia ["good", "bad"]).2
      ["good"] [] "bad" rfl (by decide) rfl

/-- Folding upserts that each leave the state unchanged is the identity. -/
theorem upsert_foldl_const (a : String) (s : Store) :
    ∀ l : List Transaction, (∀ t ∈ l, (upsertTx s a t).1 = s) →
      List.foldl (fun s2 t => (upsertTx s2 a t).1) s l = s := by
  intro l
  induction l with
  | nil => intro _; rfl
  | cons t ts ih =>
    intro h
    rw [List.foldl_cons, h t (List.mem_cons_self _ _)]
    exact ih (fun x hx => h x (List.mem_cons_of_mem _ hx))

/-- C5 (confirmed): transaction upsert is idempotent on the index key: in
every stored state, inserting a transaction whose index is already
recorded for its address affects 0 rows and leaves the table — including
the stored payload — unchanged (first conjunct), so re-applying a
snapshot's already-persisted transactions via UpdateTransactions returns
the store exactly as it was (second conjunct). -/
theorem upsert_idempotent (s : Store) (d : AddressData)
    (h : ∀ t ∈ d.Txs, ∃ r, s.transactions.lookup t.Index = some r
        ∧ r.address = d.Address) :
    (∀ t ∈ d.Txs, upsertTx s d.Address t = (s, 0))
    ∧ updateTransactions s d = Except.ok s := by
  have h1 : ∀ t ∈ d.Txs, upsertTx s d.Address t = (s, 0) := by
    intro t ht
    obtain ⟨r, hr, _⟩ := h t ht
    unfold upsertTx
    rw [hr]
    simp
  refine ⟨h1, ?_⟩
  unfold updateTransactions
  rw [upsert_foldl_const d.Address s d.Txs (fun t ht => by rw [h1 t ht])]

/-- Store and snapshot used by the C5 witness. -/
def s5 : Store := ⟨[("A", 0)], [(1, ⟨"h", "A", "d"⟩)]⟩

/-- Snapshot re-applying the transaction already stored in `s5`. -/
def d5 : AddressData := ⟨"A", 0, 0, [⟨1, "h", "d"⟩]⟩

/-- Witness for C5: re-applying an already-stored transaction changes
nothing and affects zero rows. -/
theorem upsert_idempotent_witness :
    upsertTx s5 "A" ⟨1, "h", "d"⟩ = (s5, 0)
    ∧ updateTransactions s5 d5 = Except.ok s5 := by
  have h := upsert_idempotent s5 d5 (by
    intro t ht
    simp only [d5, List.mem_singleton] at ht
    subst ht
    exact ⟨⟨"h", "A", "d"⟩, rfl, rfl⟩)
  exact ⟨h.1 ⟨1, "h", "d"⟩ (by simp [d5]), h.2⟩

/-- Store already holding index 9 for address C, used by the C6
counterexample. -/
def s6 : Store := ⟨[("C", 3)], [(9, ⟨"h9", "C", "p9"⟩)]⟩

/-- Snapshot re-inserting that stored transaction. -/
def d6 : AddressData := ⟨"C", 3, 0, [⟨9, "h9", "p9"⟩]⟩

/-- C6 counterexample: an upsertTransactions write that affects 0 rows (a
duplicate INSERT OR IGNORE) does NOT fail the batch: UpdateTransactions
returns success and the commit-loop step carries on — the claimed
row-count guard exists only for updateBalance, not for the transaction
upserts. -/
theorem rowcount_guard_cex :
    (upsertTx s6 "C" ⟨9, "h9", "p9"⟩).2 = 0
    ∧ updateTransactions s6 d6 = Except.ok s6
    ∧ applyResult s6 d6 = s6 :=
  ⟨rfl, rfl, rfl⟩

/-- C6 corrected: updateBalance does run a row-count guard — an update for
an address with no stored row affects 0 rows and returns an error instead
of silently succeeding (first conjunct) — but upsertTransactions performs
no row-count validation at all: it succeeds on every store and snapshot,
returning the folded state, even when its INSERT OR IGNORE statements
affect 0 rows (second conjunct). -/
theorem updateBalance_rowcount_guard (s : Store) (a : String) (b : Int)
    (d : AddressData) (h : ∀ p ∈ s.wallet, p.1 ≠ a) :
    updateBalance s a b
        = Except.error "invalid number of effected rows in balance update"
    ∧ ∃ s2, updateTransactions s d = Except.ok s2 := by
  constructor
  · unfold updateBalance
    have hz : balanceRows s a = 0 := by
      unfold balanceRows
      rw [List.filter_eq_nil_iff.mpr (fun p hp => by simpa using h p hp)]
      rfl
    rw [hz]
    simp
  · exact ⟨_, rfl⟩

/-- Witness for the corrected C6: updating the balance of the absent
address B errors, and UpdateTransactions succeeds on the same store. -/
theorem updateBalance_rowcount_guard_witness :
    updateBalance ⟨[("A", 0)], []⟩ "B" 7
        = Except.error "invalid number of effected rows in balance update"
    ∧ ∃ s2, updateTransactions ⟨[("A", 0)], []⟩ d6 = Except.ok s2 :=
  updateBalance_rowcount_guard ⟨[("A", 0)], []⟩ "B" 7 d6 (by simp)

/-- Store where address A already holds the transaction with index 1,
alongside a second tracked address B. -/
def s7 : Store := ⟨[("A", 0), ("B", 0)], [(1, ⟨"hA", "A", "dA"⟩)]⟩

/-- C7 counterexample: the transaction index is NOT scoped per address:
with index 1 stored for address A, inserting a transaction with index 1
for the DIFFERENT address B is silently ignored (0 rows), upserting B's
snapshot leaves the store unchanged, and no transaction row for B exists
afterwards — two addresses cannot each durably hold the same index. -/
theorem txindex_per_address_cex :
    upsertTx s7 "B" ⟨1, "hB", "dB"⟩ = (s7, 0)
    ∧ updateTransactions s7 ⟨"B", 0, 0, [⟨1, "hB", "dB"⟩]⟩ = Except.ok s7
    ∧ (s7.transactions.filter (fun r => r.2.address == "B")).length = 0 :=
  ⟨rfl, rfl, rfl⟩

/-- C7 corrected: tx_index is the transactions table's GLOBAL primary key:
an insert whose index is already stored — under any address — is ignored
and affects 0 rows (first conjunct), and an upsert never duplicates a key:
it preserves key-uniqueness of the table (second conjunct), so at most one
transaction per index exists across all addresses. -/
theorem txindex_global_key (s : Store) (a : String) (t : Transaction)
    (r : TxRow) (h : s.transactions.lookup t.Index = some r) :
    upsertTx s a t = (s, 0)
    ∧ ∀ (s2 : Store) (a2 : String) (t2 : Transaction),
        (s2.transactions.map Prod.fst).Nodup →
        ((upsertTx s2 a2 t2).1.transactions.map Prod.fst).Nodup := by
  constructor
  · unfold upsertTx
    rw [h]
    simp
  · intro s2 a2 t2 hnd
    unfold upsertTx
    cases hc : (s2.transactions.lookup t2.Index).isSome with
    | true => simpa using hnd
    | false =>
      have hnone : s2.transactions.lookup t2.Index = none := by
        cases hl : s2.transactions.lookup t2.Index with
        | none => rfl
        | some v => rw [hl] at hc; simp at hc
      have hmem := assoc_not_mem_of_lookup_none s2.transactions t2.Index hnone
      have hmem2 : ∀ x : TxRow, (t2.Index, x) ∉ s2.transactions := by
        intro x hx
        exact hmem (List.mem_map.mpr ⟨(t2.Index, x), hx, rfl⟩)
      simpa [List.nodup_append] using ⟨hnd, hmem2⟩

/-- Store used by the C7 witness: index 2 already stored for address X. -/
def s7w : Store := ⟨[], [(2, ⟨"h", "X", "d"⟩)]⟩

/-- Witness for the corrected C7: inserting index 2 for address Y is
ignored. -/
theorem txindex_global_key_witness :
    upsertTx s7w "Y" ⟨2, "hh", "dd"⟩ = (s7w, 0) :=
  (txindex_global_key s7w "Y" ⟨2, "hh", "dd"⟩ ⟨"h", "X", "d"⟩ rfl).1

/-- C9 (confirmed): addAddress checks existence first: adding a valid
absent address inserts it and returns alreadyExists = false (first
conjunct); adding the same address again returns alreadyExists = true —
the DuplicateAddress outcome — and performs no second insert (second
conjunct); afterwards exactly one row for that address is stored (third
conjunct). -/
theorem add_address_duplicate_detection (s : Store) (address : String)
    (h0 : address.length ≠ 0) (h42 : address.length ≤ 42)
    (habs : s.wallet.lookup address = none) :
    walletAddAddress s address
        = Except.ok (false, { s with wallet := s.wallet ++ [(address, 0)] })
    ∧ walletAddAddress { s with wallet := s.wallet ++ [(address, 0)] } address
        = Except.ok (true, { s with wallet := s.wallet ++ [(address, 0)] })
    ∧ balanceRows { s with wallet := s.wallet ++ [(address, 0)] } address = 1 := by
  have hlen : ¬ (address.length = 0 ∨ 42 < address.length) := by
    push_neg
    exact ⟨h0, h42⟩
  have hchk : checkAddress s address = false := by
    unfold checkAddress
    rw [habs]
    rfl
  have hchk2 : checkAddress { s with wallet := s.wallet ++ [(address, 0)] }
      address = true := by
    unfold checkAddress
    rw [show ({ s with wallet := s.wallet ++ [(address, 0)] } : Store).wallet
        = s.wallet ++ [(address, 0)] from rfl]
    rw [assoc_lookup_append s.wallet [(address, 0)] address habs]
    simp [List.lookup]
  refine ⟨?_, ?_, ?_⟩
  · unfold walletAddAddress
    rw [if_neg hlen, hchk]
    unfold dbAddAddress
    rw [habs]
    rfl
  · unfold walletAddAddress
    rw [if_neg hlen, hchk2]
    rfl
  · unfold balanceRows
    rw [show ({ s with wallet := s.wallet ++ [(address, 0)] } : Store).wallet
        = s.wallet ++ [(address, 0)] from rfl]
    rw [List.filter_append, assoc_filter_eq_nil s.wallet address habs]
    simp

/-- Witness for C9: adding the example address twice to an empty store
returns false then true and leaves exactly one row. -/
theorem add_address_duplicate_detection_witness :
    walletAddAddress ⟨[], []⟩ "1A1zP1eP5QGefi2DMPTfTL5SLmv7DivfNa"
        = Except.ok (false, ⟨[("1A1zP1eP5QGefi2DMPTfTL5SLmv7DivfNa", 0)], []⟩)
    ∧ walletAddAddress ⟨[("1A1zP1eP5QGefi2DMPTfTL5SLmv7DivfNa", 0)], []⟩
        "1A1zP1eP5QGefi2DMPTfTL5SLmv7DivfNa"
        = Except.ok (true, ⟨[("1A1zP1eP5QGefi2DMPTfTL5SLmv7DivfNa", 0)], []⟩)
    ∧ balanceRows ⟨[("1A1zP1eP5QGefi2DMPTfTL5SLmv7DivfNa", 0)], []⟩
        "1A1zP1eP5QGefi2DMPTfTL5SLmv7DivfNa" = 1 := by
  have h := add_address_duplicate_detection ⟨[], []⟩
    "1A1zP1eP5QGefi2DMPTfTL5SLmv7DivfNa" (by decide) (by decide) rfl
  exact ⟨h.1, h.2.1, h.2.2⟩

/-- C10 (confirmed): removeAddress on an absent address reports the
NotFound outcome (existed = false, per the upward surface
removeAddress → existed) and changes nothing (first conjunct); on a
present address it returns existed = true and, in one atomic unit, the
store with the address row deleted and every one of that address's
transactions deleted, so no transactions remain for a removed address
(remaining conjuncts). -/
theorem remove_address_cascades (s : Store) (address : String)
    (hnd : (s.wallet.map Prod.fst).Nodup) :
    (checkAddress s address = false →
      walletRemoveAddress s address = Except.ok (false, s))
    ∧ (checkAddress s address = true →
        walletRemoveAddress s address
          = Except.ok (true,
              ⟨s.wallet.filter (fun p => p.1 != address),
               s.transactions.filter (fun r => r.2.address != address)⟩)
        ∧ (s.wallet.filter (fun p => p.1 != address)).lookup address = none
        ∧ (s.transactions.filter (fun r => r.2.address != address)).filter
            (fun r => r.2.address == address) = []) := by
  constructor
  · intro hc
    unfold walletRemoveAddress
    rw [hc]
    rfl
  · intro hc
    have hrows : balanceRows s address = 1 := by
      unfold balanceRows
      exact assoc_rows_one s.wallet address hnd (by
        unfold checkAddress at hc
        exact hc)
    refine ⟨?_, ?_, ?_⟩
    · unfold walletRemoveAddress dbRemoveAddress
      rw [hc, if_pos hrows]
      rfl
    · apply assoc_lookup_none_of_not_mem
      intro hmem
      obtain ⟨p, hp, hfst⟩ := List.mem_map.mp hmem
      have hpp := (List.mem_filter.mp hp).2
      rw [hfst] at hpp
      simp at hpp
    · refine List.filter_eq_nil_iff.mpr ?_
      intro r hr
      have hrr := (List.mem_filter.mp hr).2
      simpa using hrr

/-- Store used by the C10 witness: two addresses, one transaction each. -/
def s10 : Store :=
  ⟨[("A", 1), ("B", 2)], [(1, ⟨"h1", "A", "d1"⟩), (2, ⟨"h2", "B", "d2"⟩)]⟩

/-- Witness for C10: removing the absent address Z changes nothing and
reports existed = false; removing B deletes its wallet row and its
transaction together. -/
theorem remove_address_cascades_witness :
    walletRemoveAddress s10 "Z" = Except.ok (false, s10)
    ∧ walletRemoveAddress s10 "B"
        = Except.ok (true,
            ⟨s10.wallet.filter (fun p => p.1 != "B"),
             s10.transactions.filter (fun r => r.2.address != "B")⟩) := by
  constructor
  · exact (remove_address_cascades s10 "Z" (by decide)).1 rfl
  · exact ((remove_address_cascades s10 "B" (by decide)).2 rfl).1

end CoinTracker
